import Mathlib

/-!
# Verification of the hallucino log retrieval and classification pipeline

Shallow embedding of the Go sources:
- `internal/k8s` (client): `LogEntry`, `RetrievePodLogs` (line splitting / stamping);
- `internal/storage/storage.go`: `LogStorage` with `AddLog`, `GetLogs`, `Clear`;
- `internal/analysis/analyser.go`: `LogAnalyzer`, `analyzeLine`, `processLogs`,
  `generateDetailedReport`;
- `cmd/root.go`: `retrieveLogs` (fan-out production of entries and errors) and its
  fan-in consumer loop (modelled as an explicit scheduler-driven step function).

Machine-independent data (strings, lists, counters) is modelled directly; the Go
regexp patterns are concrete literals whose matching semantics are expanded into
executable substring predicates; `time.Now()` is modelled as an ambient timestamp
parameter (its value is irrelevant to every claim).
-/

namespace Hallucino

/-- Substring occurrence on character lists: `containsSeg s p` is true iff `p`
occurs contiguously inside `s`.  This is the meaning of Go's
`regexp.MatchString` for a regex that is a plain literal word. -/
def containsSeg (s p : List Char) : Bool :=
  (List.range (s.length + 1)).any fun i => (s.drop i).take p.length = p

/-- Lowercasing, modelling the `(?i)` flag of the Go regexes.  The patterns are
ASCII, for which `Char.toLower` agrees with Go's case folding. -/
def toLowerList (s : List Char) : List Char :=
  s.map Char.toLower

/-- Case-insensitive literal-substring match of pattern `p` inside `s`
(pattern written in lowercase). -/
def lcContains (s : String) (p : String) : Bool :=
  containsSeg (toLowerList s.data) p.data

/-- Model of `errorRegex := regexp.MustCompile((?i)error|critical|fatal|panic)` from
`analyzeLine`: the regex is an alternation of four literal words, so
`MatchString` holds iff one of them occurs case-insensitively. -/
def matchesError (s : String) : Bool :=
  lcContains s "error" || lcContains s "critical" || lcContains s "fatal" || lcContains s "panic"

/-- Model of `warningRegex := regexp.MustCompile((?i)warning|warn)` from `analyzeLine`. -/
def matchesWarning (s : String) : Bool :=
  lcContains s "warning" || lcContains s "warn"

/-- Model of `performanceRegex := regexp.MustCompile((?i)timeout|latency|slow|high load)`
from `analyzeLine`. -/
def matchesPerformance (s : String) : Bool :=
  lcContains s "timeout" || lcContains s "latency" || lcContains s "slow" || lcContains s "high load"

/-- The `container.*restart` branch of the restart regex: an occurrence of the
literal `container` followed, at or after its end, by an occurrence of the
literal `restart`, with no newline in between (Go's `.` does not match `\n`). -/
def matchesContainerRestart (s : String) : Bool :=
  let t := toLowerList s.data
  (List.range (t.length + 1)).any fun i =>
    decide ((t.drop i).take 9 = "container".data) &&
      (List.range (t.length + 1)).any fun j =>
        decide (i + 9 ≤ j) && decide ((t.drop j).take 7 = "restart".data) &&
          ((t.take j).drop (i + 9)).all fun c => c ≠ '\n'

/-- Model of `restartRegex := regexp.MustCompile((?i)pod|container.*restart)` from
`analyzeLine`.  Alternation binds loosest in Go regexps, so this matches iff
the bare literal `pod` occurs anywhere, or `container.*restart` matches. -/
def matchesRestart (s : String) : Bool :=
  lcContains s "pod" || matchesContainerRestart s

/-- Model of `k8s.LogEntry` from `internal/k8s`. -/
structure LogEntry where
  Namespace : String
  PodName : String
  Container : String
  LogContent : String
  Timestamp : String
deriving DecidableEq, Repr

/-- Model of `analysis.LogAnalyzer` from `analyser.go`.  The Go struct holds the input
batch and the mutable classification state. -/
structure LogAnalyzer where
  logs : List LogEntry
  criticalEvents : List LogEntry
  performanceIssues : List LogEntry
  errorCount : Nat
  warningCount : Nat
deriving DecidableEq, Repr

/-- Model of `analyzeLine` from `analyser.go`: a Go `switch` over the four regexes, in
source order, executing only the first matching case (Go `switch` has no
fall-through).  In the restart case the Go code assigns to the local copy
`log.LogContent` before appending, producing a new value (Go structs are passed
by value). -/
def analyzeLine (la : LogAnalyzer) (log : LogEntry) : LogAnalyzer :=
  if matchesError log.LogContent then
    { la with errorCount := la.errorCount + 1,
              criticalEvents := la.criticalEvents ++ [log] }
  else if matchesWarning log.LogContent then
    { la with warningCount := la.warningCount + 1 }
  else if matchesPerformance log.LogContent then
    { la with performanceIssues := la.performanceIssues ++ [log] }
  else if matchesRestart log.LogContent then
    { la with criticalEvents :=
        la.criticalEvents ++ [{ log with LogContent := "Restart Event: " ++ log.LogContent }] }
  else la

/-- Model of `processLogs` from `analyser.go`: `for _, log := range la.logs { la.analyzeLine(log) }`. -/
def processLogs (la : LogAnalyzer) : LogAnalyzer :=
  la.logs.foldl analyzeLine la

/-- Model of `NewLogAnalyzer` from `analyser.go`: initial zero state over the input
batch, then `processLogs`. -/
def NewLogAnalyzer (logs : List LogEntry) : LogAnalyzer :=
  processLogs { logs := logs, errorCount := 0, warningCount := 0,
                criticalEvents := [], performanceIssues := [] }

/-- Model of `storage.LogStorage` from `storage.go`: the mutex only serialises access,
so the sequential state is the list of entries. -/
structure LogStorage where
  logs : List LogEntry
deriving DecidableEq, Repr

/-- Model of `storage.NewLogStorage`. -/
def NewLogStorage : LogStorage :=
  { logs := [] }

/-- Model of `LogStorage.AddLog`: `ls.logs = append(ls.logs, log)` under the write lock. -/
def AddLog (ls : LogStorage) (log : LogEntry) : LogStorage :=
  { ls with logs := ls.logs ++ [log] }

/-- Model of `LogStorage.GetLogs`: returns the current sequence under the read lock. -/
def GetLogs (ls : LogStorage) : List LogEntry :=
  ls.logs

/-- Model of `LogStorage.Clear`: `ls.logs = []k8s.LogEntry{}` under the write lock. -/
def Clear (ls : LogStorage) : LogStorage :=
  { ls with logs := [] }

/-- Model of `strings.Split(s, "\n")` from `k8s.RetrievePodLogs`, on character lists
(the separator is the single character `\n`). -/
def splitLinesAux : List Char → List Char → List (List Char)
  | [], cur => [cur.reverse]
  | c :: rest, cur =>
    if c = '\n' then cur.reverse :: splitLinesAux rest []
    else splitLinesAux rest (c :: cur)

/-- Split a raw log stream into its `\n`-separated pieces. -/
def splitLines (s : String) : List String :=
  (splitLinesAux s.data []).map fun l => { data := l }

/-- The parsing loop of `k8s.RetrievePodLogs`: iterate over the split lines,
skip empty ones, and build a `LogEntry` stamped with the identity triple and
the ingestion timestamp (`time.Now().Format(time.RFC3339)`, modelled by the
ambient parameter `ts`). -/
def parseLogLines (ns podName containerName raw ts : String) : List LogEntry :=
  (splitLines raw).foldl
    (fun logs line =>
      if line = "" then logs
      else logs ++ [{ Namespace := ns, PodName := podName, Container := containerName,
                      LogContent := line, Timestamp := ts }])
    []

/-- The external cluster collaborator (`k8s` package boundary): pod listing,
container listing, and the raw log stream fetch (`req.Stream` + `io.ReadAll`),
each fallible. -/
structure Cluster where
  listPods : String → Except String (List String)
  listContainers : String → String → Except String (List String)
  fetchLogs : String → String → String → Except String String

/-- Model of `k8s.RetrievePodLogs`: fetch the raw stream, then split/stamp its
non-empty lines. -/
def RetrievePodLogs (c : Cluster) (ts ns podName containerName : String) :
    Except String (List LogEntry) :=
  match c.fetchLogs ns podName containerName with
  | .error e => .error ("error opening log stream: " ++ e)
  | .ok raw => .ok (parseLogLines ns podName containerName raw ts)

/-- The per-pod goroutine body of `retrieveLogs` (`cmd/root.go`): resolve the
container set (a listing failure sends one error and abandons the pod), then
for each container fetch its logs (a fetch failure sends one error for that
container only; success sends each entry).  The pair is (entries sent on
`logChan`, errors sent on `errorChan`) in source order — the canonical
interleaving; every claim below about channel contents is about counts and
multisets, which are the same for every interleaving. -/
def retrievePod (c : Cluster) (ts ns containerFilter podName : String) :
    List LogEntry × List String :=
  match (if containerFilter ≠ "" then Except.ok [containerFilter]
         else c.listContainers ns podName) with
  | .error e => ([], ["failed to list containers for pod " ++ podName ++ ": " ++ e])
  | .ok containers =>
    containers.foldl
      (fun acc containerName =>
        match RetrievePodLogs c ts ns podName containerName with
        | .error e => (acc.1, acc.2 ++ ["failed to retrieve logs for pod " ++ podName ++
            ", container " ++ containerName ++ ": " ++ e])
        | .ok logs => (acc.1 ++ logs, acc.2))
      ([], [])

/-- Model of `retrieveLogs` (`cmd/root.go`), production side: resolve the pod set (a
listing failure is fatal and aborts before any task is spawned), then run one
task per pod.  Returns the entries and errors sent on the two channels; the
fan-in consumer that moves them into the store is modelled separately by
`runConsumer`. -/
def retrieveLogs (c : Cluster) (ts ns podFilter containerFilter : String) :
    Except String (List LogEntry × List String) :=
  match (if podFilter = "" then c.listPods ns else .ok [podFilter]) with
  | .error e => .error ("failed to list pods: " ++ e)
  | .ok pods =>
    .ok (pods.foldl
      (fun acc podName =>
        let r := retrievePod c ts ns containerFilter podName
        (acc.1 ++ r.1, acc.2 ++ r.2))
      ([], []))

/-- State of the fan-in consumer goroutine of `retrieveLogs`
(`cmd/root.go:202-224`) after both channels have been closed (the closer
goroutine runs `close` only after `wg.Wait()`, so at that point every send has
been buffered): the two channel buffers, the store contents, the errors
already printed, and whether the goroutine has returned. -/
structure ConsumerState where
  logBuf : List LogEntry
  errBuf : List String
  stored : List LogEntry
  delivered : List String
  returned : Bool
deriving DecidableEq, Repr

/-- One iteration of the consumer's `for { select { ... } }` loop.  `pick`
is the scheduler's choice of ready `select` case (`true` = `logChan` case,
`false` = `errorChan` case; on a closed channel both are always ready).
`logChan` case: a buffered value is stored (`logStore.AddLog`); `ok = false`
executes `return`.  `errorChan` case: a buffered error is printed; `ok =
false` executes `break`, which in Go leaves only the `select`, so the loop
continues. -/
def consumerStep (s : ConsumerState) (pick : Bool) : ConsumerState :=
  if s.returned then s
  else if pick then
    match s.logBuf with
    | [] => { s with returned := true }
    | l :: rest => { s with logBuf := rest, stored := s.stored ++ [l] }
  else
    match s.errBuf with
    | [] => s
    | e :: rest => { s with errBuf := rest, delivered := s.delivered ++ [e] }

/-- Run the consumer loop under a finite schedule of `select` choices. -/
def runConsumer (s : ConsumerState) (schedule : List Bool) : ConsumerState :=
  schedule.foldl consumerStep s

/-- Initial consumer state over the channel buffers produced by the tasks. -/
def initConsumer (logs : List LogEntry) (errs : List String) : ConsumerState :=
  { logBuf := logs, errBuf := errs, stored := [], delivered := [], returned := false }

/-- The per-event line of `generateDetailedReport`:
`fmt.Sprintf("- x60%s | %s | %sx60: %s\n", Timestamp, PodName, Container, LogContent)`
(with `x60` standing in this comment for the backquote character). -/
def eventLine (event : LogEntry) : String :=
  "- `" ++ event.Timestamp ++ " | " ++ event.PodName ++ " | " ++ event.Container ++
    "`: " ++ event.LogContent ++ "\n"

/-- Model of `generateDetailedReport` from `analyser.go`: sequential string building,
with a placeholder line for each empty section (`%d` on a non-negative count
is decimal, i.e. `Nat.repr`). -/
def generateDetailedReport (la : LogAnalyzer) : String :=
  let report := "### Kubernetes Log Analysis Report\n\n"
  let report := report ++ "- **Total Log Entries:** " ++ Nat.repr la.logs.length ++ "\n"
  let report := report ++ "- **Error Count:** " ++ Nat.repr la.errorCount ++ "\n"
  let report := report ++ "- **Warning Count:** " ++ Nat.repr la.warningCount ++ "\n\n"
  let report := report ++ "#### Critical Events\n"
  let report :=
    if la.criticalEvents.length > 0 then
      la.criticalEvents.foldl (fun r event => r ++ eventLine event) report
    else report ++ "- No critical events detected.\n"
  let report := report ++ "\n#### Performance Issues\n"
  let report :=
    if la.performanceIssues.length > 0 then
      la.performanceIssues.foldl (fun r issue => r ++ eventLine issue) report
    else report ++ "- No significant performance issues detected.\n"
  report

/-- Per-entry contribution of `analyzeLine` to `criticalEvents`: `some` of the
appended entry when the first matching switch case appends to the critical
list, `none` otherwise.  Mirrors the case order of `analyzeLine`. -/
def criticalSelect (log : LogEntry) : Option LogEntry :=
  if matchesError log.LogContent then some log
  else if matchesWarning log.LogContent then none
  else if matchesPerformance log.LogContent then none
  else if matchesRestart log.LogContent then
    some { log with LogContent := "Restart Event: " ++ log.LogContent }
  else none

/-- Per-entry contribution of `analyzeLine` to `performanceIssues`. -/
def perfSelect (log : LogEntry) : Option LogEntry :=
  if matchesError log.LogContent then none
  else if matchesWarning log.LogContent then none
  else if matchesPerformance log.LogContent then some log
  else none

/-- Per-entry contribution of `analyzeLine` to `errorCount`. -/
def errorFlag (log : LogEntry) : Bool :=
  matchesError log.LogContent

/-- Per-entry contribution of `analyzeLine` to `warningCount` (the warning
case runs only when the error case did not match). -/
def warningFlag (log : LogEntry) : Bool :=
  !matchesError log.LogContent && matchesWarning log.LogContent

/-- A concrete entry used by witnesses; the classification only reads
`LogContent`. -/
def sampleEntry (content : String) : LogEntry :=
  { Namespace := "default", PodName := "pod1", Container := "c1",
    LogContent := content, Timestamp := "2024-11-27T10:00:00Z" }

/-- A concrete non-empty analyzer state used by witnesses. -/
def sampleState : LogAnalyzer :=
  { logs := [sampleEntry "boot"], criticalEvents := [sampleEntry "previous critical"],
    performanceIssues := [sampleEntry "previous slow"], errorCount := 3, warningCount := 5 }

/-- A cluster whose pod listing fails (used by the fatal-setup witness). -/
def failingCluster : Cluster :=
  { listPods := fun _ => .error "connection refused",
    listContainers := fun _ _ => .ok ["c1"],
    fetchLogs := fun _ _ _ => .ok "line1\nline2" }

/-- A second cluster with the same failing pod listing but different
container/fetch collaborators, witnessing that nothing beyond the pod listing
is consulted. -/
def failingCluster2 : Cluster :=
  { listPods := fun _ => .error "connection refused",
    listContainers := fun _ _ => .ok ["other"],
    fetchLogs := fun _ _ _ => .error "unreachable" }

/-- A fully healthy cluster: one pod, two containers, each stream holding two
non-empty lines (used by the completion witness). -/
def healthyCluster : Cluster :=
  { listPods := fun _ => .ok ["p1"],
    listContainers := fun _ _ => .ok ["c1", "c2"],
    fetchLogs := fun _ _ _ => .ok "alpha\nbeta" }

/-- A cluster where exactly one of the two container fetches fails (used for
the partial-failure run). -/
def oneFailCluster : Cluster :=
  { listPods := fun _ => .ok ["p1"],
    listContainers := fun _ _ => .ok ["c1", "c2"],
    fetchLogs := fun _ _ cn => if cn = "c1" then .error "boom" else .ok "alpha" }

/-- The single entry produced by the healthy container c2 of
`oneFailCluster`. -/
def droppedEntry : LogEntry :=
  { Namespace := "ns", PodName := "p1", Container := "c2",
    LogContent := "alpha", Timestamp := "t0" }

/-- The single error produced by the failing container c1 of
`oneFailCluster`. -/
def droppedErr : String :=
  "failed to retrieve logs for pod p1, container c1: error opening log stream: boom"

/-- The critical-events section body of the report (lines, or placeholder). -/
def criticalSectionText (events : List LogEntry) : String :=
  if events.length > 0 then events.foldl (fun r event => r ++ eventLine event) ""
  else "- No critical events detected.\n"

/-- The performance-issues section body of the report (lines, or placeholder). -/
def perfSectionText (issues : List LogEntry) : String :=
  if issues.length > 0 then issues.foldl (fun r issue => r ++ eventLine issue) ""
  else "- No significant performance issues detected.\n"


/-- `analyzeLine` in normal form: each run of the switch contributes the
selector outputs to the four state fields and leaves `logs` unchanged. -/
lemma analyzeLine_cases (la : LogAnalyzer) (log : LogEntry) :
    analyzeLine la log =
      { logs := la.logs,
        criticalEvents := la.criticalEvents ++ (criticalSelect log).toList,
        performanceIssues := la.performanceIssues ++ (perfSelect log).toList,
        errorCount := la.errorCount + (if errorFlag log then 1 else 0),
        warningCount := la.warningCount + (if warningFlag log then 1 else 0) } := by
  unfold analyzeLine criticalSelect perfSelect errorFlag warningFlag
  by_cases h1 : matchesError log.LogContent <;>
    by_cases h2 : matchesWarning log.LogContent <;>
      by_cases h3 : matchesPerformance log.LogContent <;>
        by_cases h4 : matchesRestart log.LogContent <;>
          simp [h1, h2, h3, h4]

lemma foldl_analyzeLine_spec (l : List LogEntry) (la : LogAnalyzer) :
    l.foldl analyzeLine la =
      { logs := la.logs,
        criticalEvents := la.criticalEvents ++ l.filterMap criticalSelect,
        performanceIssues := la.performanceIssues ++ l.filterMap perfSelect,
        errorCount := la.errorCount + l.countP errorFlag,
        warningCount := la.warningCount + l.countP warningFlag } := by
  induction l generalizing la with
  | nil => simp
  | cons x xs ih =>
    rw [List.foldl_cons, analyzeLine_cases, ih]
    simp only [LogAnalyzer.mk.injEq, List.filterMap_cons, List.countP_cons]
    refine ⟨trivial, ?_, ?_, ?_, ?_⟩
    · cases hc : criticalSelect x <;> simp [hc]
    · cases hp : perfSelect x <;> simp [hp]
    · cases he : errorFlag x <;> (simp [he]; try omega)
    · cases hw : warningFlag x <;> (simp [hw]; try omega)

lemma NewLogAnalyzer_spec (logs : List LogEntry) :
    NewLogAnalyzer logs =
      { logs := logs,
        criticalEvents := logs.filterMap criticalSelect,
        performanceIssues := logs.filterMap perfSelect,
        errorCount := logs.countP errorFlag,
        warningCount := logs.countP warningFlag } := by
  unfold NewLogAnalyzer processLogs
  rw [foldl_analyzeLine_spec]
  simp

lemma filterMap_sublist_self {α : Type} (f : α → Option α) (l : List α)
    (h : ∀ a b, f a = some b → b = a) : List.Sublist (l.filterMap f) l := by
  induction l with
  | nil => simp
  | cons x xs ih =>
    cases hfx : f x with
    | none => rw [List.filterMap_cons, hfx]; exact ih.cons x
    | some b =>
      have hb := h x b hfx
      rw [List.filterMap_cons, hfx, hb]; exact ih.cons₂ x

lemma filterMap_sublist_map_getD {α : Type} (f : α → Option α) (l : List α) :
    List.Sublist (l.filterMap f) (l.map fun a => (f a).getD a) := by
  induction l with
  | nil => simp
  | cons x xs ih =>
    cases hfx : f x with
    | none => rw [List.filterMap_cons, hfx, List.map_cons]; exact ih.cons _
    | some b =>
      rw [List.filterMap_cons, hfx, List.map_cons, hfx]
      exact ih.cons₂ _


lemma consumerStep_frozen (s : ConsumerState) (pick : Bool) (h : s.returned = true) :
    consumerStep s pick = s := by
  simp [consumerStep, h]

lemma runConsumer_frozen (s : ConsumerState) (sched : List Bool) (h : s.returned = true) :
    runConsumer s sched = s := by
  induction sched with
  | nil => rfl
  | cons p rest ih =>
    simp only [runConsumer, List.foldl_cons, consumerStep_frozen s p h]
    exact ih

lemma consumerStep_conserves (s : ConsumerState) (pick : Bool) :
    (consumerStep s pick).stored ++ (consumerStep s pick).logBuf = s.stored ++ s.logBuf ∧
    (consumerStep s pick).delivered ++ (consumerStep s pick).errBuf = s.delivered ++ s.errBuf := by
  unfold consumerStep
  by_cases hret : s.returned = true
  · simp [hret]
  · by_cases hp : pick
    · cases hl : s.logBuf <;> simp [hret, hp, hl]
    · cases he : s.errBuf <;> simp [hret, hp, he]

lemma runConsumer_conserves (s : ConsumerState) (sched : List Bool) :
    (runConsumer s sched).stored ++ (runConsumer s sched).logBuf = s.stored ++ s.logBuf ∧
    (runConsumer s sched).delivered ++ (runConsumer s sched).errBuf = s.delivered ++ s.errBuf := by
  induction sched generalizing s with
  | nil => exact ⟨rfl, rfl⟩
  | cons p rest ih =>
    have h1 := consumerStep_conserves s p
    have h2 := ih (consumerStep s p)
    simp only [runConsumer, List.foldl_cons] at h2 ⊢
    exact ⟨h2.1.trans h1.1, h2.2.trans h1.2⟩

lemma consumerStep_returned (s : ConsumerState) (pick : Bool)
    (h0 : s.returned = false) (h : (consumerStep s pick).returned = true) :
    (consumerStep s pick).logBuf = [] := by
  by_cases hp : pick
  · cases hl : s.logBuf <;> simp_all [consumerStep]
  · cases he : s.errBuf <;> simp_all [consumerStep]

lemma runConsumer_returned_drained (sched : List Bool) :
    ∀ s : ConsumerState, s.returned = false → (runConsumer s sched).returned = true →
      (runConsumer s sched).logBuf = [] := by
  induction sched with
  | nil =>
    intro s h0 h
    simp only [runConsumer, List.foldl_nil] at h
    rw [h0] at h; exact absurd h (by simp)
  | cons p rest ih =>
    intro s h0 h
    simp only [runConsumer, List.foldl_cons] at h ⊢
    by_cases h1 : (consumerStep s p).returned = true
    · have hfr := runConsumer_frozen (consumerStep s p) rest h1
      simp only [runConsumer] at hfr
      rw [hfr]
      exact consumerStep_returned s p h0 h1
    · exact ih (consumerStep s p) (by simpa using h1) h

lemma consumer_completion (logs : List LogEntry) (errs : List String) (sched : List Bool)
    (h : (runConsumer (initConsumer logs errs) sched).returned = true) :
    (runConsumer (initConsumer logs errs) sched).stored = logs := by
  have hdr := runConsumer_returned_drained sched (initConsumer logs errs) rfl h
  have hc := (runConsumer_conserves (initConsumer logs errs) sched).1
  rw [hdr] at hc
  simpa [initConsumer] using hc


lemma parseLogLines_length (ns p cn raw ts : String) :
    (parseLogLines ns p cn raw ts).length
      = ((splitLines raw).filter (fun l => l ≠ "")).length := by
  have aux : ∀ (lines : List String) (acc : List LogEntry),
      (lines.foldl (fun logs line =>
        if line = "" then logs
        else logs ++ [{ Namespace := ns, PodName := p, Container := cn,
                        LogContent := line, Timestamp := ts }]) acc).length
        = acc.length + (lines.filter (fun l => l ≠ "")).length := by
    intro lines
    induction lines with
    | nil => intro acc; simp
    | cons x xs ih =>
      intro acc
      by_cases hx : x = ""
      · simp [hx, ih, List.filter_cons]
      · simp [hx, ih, List.filter_cons]
        omega
  simpa [parseLogLines] using aux (splitLines raw) []

lemma retrievePod_ok (c : Cluster) (ts ns p : String) (cs : List String) (L : Nat)
    (hcs : c.listContainers ns p = .ok cs)
    (hfetch : ∀ cn ∈ cs, ∃ raw, c.fetchLogs ns p cn = .ok raw ∧
      ((splitLines raw).filter (fun l => l ≠ "")).length = L) :
    (retrievePod c ts ns "" p).1.length = cs.length * L ∧
    (retrievePod c ts ns "" p).2 = [] := by
  have aux : ∀ (l : List String) (acc : List LogEntry × List String),
      (∀ cn ∈ l, ∃ raw, c.fetchLogs ns p cn = .ok raw ∧
        ((splitLines raw).filter (fun l => l ≠ "")).length = L) →
      ((l.foldl (fun acc containerName =>
          match RetrievePodLogs c ts ns p containerName with
          | .error e => (acc.1, acc.2 ++ ["failed to retrieve logs for pod " ++ p ++
              ", container " ++ containerName ++ ": " ++ e])
          | .ok logs => (acc.1 ++ logs, acc.2)) acc).1.length
          = acc.1.length + l.length * L ∧
       (l.foldl (fun acc containerName =>
          match RetrievePodLogs c ts ns p containerName with
          | .error e => (acc.1, acc.2 ++ ["failed to retrieve logs for pod " ++ p ++
              ", container " ++ containerName ++ ": " ++ e])
          | .ok logs => (acc.1 ++ logs, acc.2)) acc).2 = acc.2) := by
    intro l
    induction l with
    | nil => intro acc _; simp
    | cons x xs ih =>
      intro acc hall
      obtain ⟨raw, hraw, hlen⟩ := hall x (by simp)
      have hx : RetrievePodLogs c ts ns p x = .ok (parseLogLines ns p x raw ts) := by
        simp [RetrievePodLogs, hraw]
      rw [List.foldl_cons, hx]
      have := ih (acc.1 ++ parseLogLines ns p x raw ts, acc.2)
        (fun cn hcn => hall cn (by simp [hcn]))
      refine ⟨?_, this.2⟩
      rw [this.1]
      have h2 := parseLogLines_length ns p x raw ts
      rw [hlen] at h2
      simp [h2]
      ring
  unfold retrievePod
  simp only [ne_eq, not_true_eq_false, if_false, reduceIte]
  rw [hcs]
  have := aux cs ([], []) hfetch
  simpa using this


lemma retrieveLogs_all_ok (c : Cluster) (ts ns : String) (pods : List String) (M L : Nat)
    (css : String → List String) (raws : String → String → String)
    (hpods : c.listPods ns = .ok pods)
    (hcs : ∀ p ∈ pods, c.listContainers ns p = .ok (css p) ∧ (css p).length = M)
    (hfetch : ∀ p ∈ pods, ∀ cn ∈ css p, c.fetchLogs ns p cn = .ok (raws p cn) ∧
      ((splitLines (raws p cn)).filter (fun l => l ≠ "")).length = L) :
    ∃ sent : List LogEntry × List String,
      retrieveLogs c ts ns "" "" = .ok sent ∧
      sent.1.length = pods.length * (M * L) ∧ sent.2 = [] := by
  have hpod1 : ∀ p ∈ pods, (retrievePod c ts ns "" p).1.length = M * L ∧
      (retrievePod c ts ns "" p).2 = [] := by
    intro p hp
    have h1 := (hcs p hp).1
    have h2 := (hcs p hp).2
    have := retrievePod_ok c ts ns p (css p) L h1
      (fun cn hcn => ⟨raws p cn, (hfetch p hp cn hcn).1, (hfetch p hp cn hcn).2⟩)
    rw [h2] at this
    exact this
  have aux : ∀ (l : List String) (acc : List LogEntry × List String),
      (∀ p ∈ l, (retrievePod c ts ns "" p).1.length = M * L ∧
        (retrievePod c ts ns "" p).2 = []) →
      ((l.foldl (fun acc podName =>
          let r := retrievePod c ts ns "" podName
          (acc.1 ++ r.1, acc.2 ++ r.2)) acc).1.length = acc.1.length + l.length * (M * L) ∧
       (l.foldl (fun acc podName =>
          let r := retrievePod c ts ns "" podName
          (acc.1 ++ r.1, acc.2 ++ r.2)) acc).2 = acc.2) := by
    intro l
    induction l with
    | nil => intro acc _; simp
    | cons x xs ih =>
      intro acc hall
      have hx := hall x (by simp)
      have := ih (acc.1 ++ (retrievePod c ts ns "" x).1, acc.2 ++ (retrievePod c ts ns "" x).2)
        (fun p hp => hall p (by simp [hp]))
      rw [List.foldl_cons]
      refine ⟨?_, ?_⟩
      · rw [this.1]
        simp [hx.1]
        ring
      · rw [this.2]
        simp [hx.2]
  unfold retrieveLogs
  simp only [if_pos rfl]
  rw [hpods]
  have := aux pods ([], []) hpod1
  exact ⟨_, rfl, by simpa using this.1, by simpa using this.2⟩

lemma retrieveLogs_podlist_error (c : Cluster) (ts ns cf e : String)
    (h : c.listPods ns = .error e) :
    retrieveLogs c ts ns "" cf = .error ("failed to list pods: " ++ e) := by
  unfold retrieveLogs
  simp [h]


lemma foldl_eventLine_shift (l : List LogEntry) :
    ∀ init : String, l.foldl (fun r event => r ++ eventLine event) init
      = init ++ l.foldl (fun r event => r ++ eventLine event) "" := by
  induction l with
  | nil => intro init; simp
  | cons x xs ih =>
    intro init
    rw [List.foldl_cons, List.foldl_cons, ih (init ++ eventLine x), ih ("" ++ eventLine x)]
    simp [String.append_assoc]

lemma generateDetailedReport_shape (la : LogAnalyzer) :
    generateDetailedReport la =
      "### Kubernetes Log Analysis Report\n\n" ++
      "- **Total Log Entries:** " ++ Nat.repr la.logs.length ++ "\n" ++
      "- **Error Count:** " ++ Nat.repr la.errorCount ++ "\n" ++
      "- **Warning Count:** " ++ Nat.repr la.warningCount ++ "\n\n" ++
      "#### Critical Events\n" ++ criticalSectionText la.criticalEvents ++
      "\n#### Performance Issues\n" ++ perfSectionText la.performanceIssues := by
  unfold generateDetailedReport criticalSectionText perfSectionText
  by_cases hc : la.criticalEvents.length > 0
  · by_cases hp : la.performanceIssues.length > 0
    · simp only [hc, hp, if_true, reduceIte]
      rw [foldl_eventLine_shift la.performanceIssues, foldl_eventLine_shift la.criticalEvents]
    · simp only [hc, hp, if_true, if_false, reduceIte]
      rw [foldl_eventLine_shift la.criticalEvents]
  · by_cases hp : la.performanceIssues.length > 0
    · simp only [hc, hp, if_true, if_false, reduceIte]
      rw [foldl_eventLine_shift la.performanceIssues]
    · simp only [hc, hp, if_false, reduceIte]

lemma foldl_eventLine_mem (l : List LogEntry) (e : LogEntry) (he : e ∈ l) :
    ∃ s t, l.foldl (fun r event => r ++ eventLine event) "" = s ++ eventLine e ++ t := by
  induction l with
  | nil => cases he
  | cons x xs ih =>
    rw [List.foldl_cons, foldl_eventLine_shift]
    rcases List.mem_cons.mp he with hex | hexs
    · exact ⟨"", xs.foldl (fun r event => r ++ eventLine event) "", by rw [hex]⟩
    · obtain ⟨s, t, hst⟩ := ih hexs
      exact ⟨("" ++ eventLine x) ++ s, t, by rw [hst]; simp [String.append_assoc]⟩


lemma perfSelect_some {a b : LogEntry} (h : perfSelect a = some b) : b = a := by
  unfold perfSelect at h
  split at h
  · exact absurd h (by simp)
  · split at h
    · exact absurd h (by simp)
    · split at h
      · exact (Option.some.injEq _ _ ▸ h).symm ▸ rfl
      · exact absurd h (by simp)

lemma foldl_AddLog (entries : List LogEntry) :
    ∀ ls : LogStorage, (entries.foldl AddLog ls).logs = ls.logs ++ entries := by
  induction entries with
  | nil => intro ls; simp
  | cons x xs ih =>
    intro ls
    rw [List.foldl_cons, ih]
    simp [AddLog]


/-- C3: the classification is a single first-match-wins decision over the four
patterns in the order error > warning > performance > restart: an entry
matching the error pattern increments the error count and is appended
unmodified to critical-events regardless of any other matches, and every run
of `analyzeLine` applies exactly one category effect (or none). -/
theorem c3_first_match_wins (la : LogAnalyzer) (log : LogEntry) :
    (matchesError log.LogContent = true →
      analyzeLine la log =
        { la with errorCount := la.errorCount + 1,
                  criticalEvents := la.criticalEvents ++ [log] }) ∧
    (analyzeLine la log =
        { la with errorCount := la.errorCount + 1,
                  criticalEvents := la.criticalEvents ++ [log] } ∨
     analyzeLine la log = { la with warningCount := la.warningCount + 1 } ∨
     analyzeLine la log =
        { la with performanceIssues := la.performanceIssues ++ [log] } ∨
     analyzeLine la log =
        { la with criticalEvents := la.criticalEvents ++
            [{ log with LogContent := "Restart Event: " ++ log.LogContent }] } ∨
     analyzeLine la log = la) := by
  constructor
  · intro h
    simp [analyzeLine, h]
  · by_cases h1 : matchesError log.LogContent
    · exact Or.inl (by simp [analyzeLine, h1])
    · by_cases h2 : matchesWarning log.LogContent
      · exact Or.inr (Or.inl (by simp [analyzeLine, h1, h2]))
      · by_cases h3 : matchesPerformance log.LogContent
        · exact Or.inr (Or.inr (Or.inl (by simp [analyzeLine, h1, h2, h3])))
        · by_cases h4 : matchesRestart log.LogContent
          · exact Or.inr (Or.inr (Or.inr (Or.inl (by simp [analyzeLine, h1, h2, h3, h4]))))
          · exact Or.inr (Or.inr (Or.inr (Or.inr (by simp [analyzeLine, h1, h2, h3, h4]))))

/-- Witness for C3 at an entry matching all four patterns: the error path wins
and the entry is appended unmodified. -/
theorem c3_first_match_wins_witness :
    matchesError (sampleEntry "ERROR: warning slow pod restart").LogContent = true ∧
    matchesWarning (sampleEntry "ERROR: warning slow pod restart").LogContent = true ∧
    matchesPerformance (sampleEntry "ERROR: warning slow pod restart").LogContent = true ∧
    matchesRestart (sampleEntry "ERROR: warning slow pod restart").LogContent = true ∧
    analyzeLine sampleState (sampleEntry "ERROR: warning slow pod restart") =
      { sampleState with
        errorCount := sampleState.errorCount + 1,
        criticalEvents := sampleState.criticalEvents ++
          [sampleEntry "ERROR: warning slow pod restart"] } :=
  ⟨by decide, by decide, by decide, by decide,
   (c3_first_match_wins sampleState (sampleEntry "ERROR: warning slow pod restart")).1
     (by decide)⟩


/-- C4 counterexample: the content "pod scheduled" carries no
error/critical/fatal/panic token, no warning/warn token, no
timeout/latency/slow/high-load token, and no restart phrasing at all (the word
"restart" does not even occur), yet classifying it is not a no-op: the restart
regex `(?i)pod|container.*restart` matches the bare substring "pod" and the
entry is appended to critical-events with the "Restart Event: " prefix. -/
theorem c4_counterexample_pod_scheduled :
    matchesError (sampleEntry "pod scheduled").LogContent = false ∧
    matchesWarning (sampleEntry "pod scheduled").LogContent = false ∧
    matchesPerformance (sampleEntry "pod scheduled").LogContent = false ∧
    containsSeg (toLowerList (sampleEntry "pod scheduled").LogContent.data) "restart".data
      = false ∧
    analyzeLine sampleState (sampleEntry "pod scheduled") ≠ sampleState ∧
    (analyzeLine sampleState (sampleEntry "pod scheduled")).criticalEvents =
      sampleState.criticalEvents ++
        [{ sampleEntry "pod scheduled" with LogContent := "Restart Event: pod scheduled" }] := by
  decide

/-- C4 (amended): an entry matched by none of the four regexes actually
compiled in `analyzeLine` — in particular not by the restart regex
`(?i)pod|container.*restart`, which also requires no bare "pod" substring —
produces no side effect. -/
theorem c4_no_match_no_effect (la : LogAnalyzer) (log : LogEntry)
    (h1 : matchesError log.LogContent = false)
    (h2 : matchesWarning log.LogContent = false)
    (h3 : matchesPerformance log.LogContent = false)
    (h4 : matchesRestart log.LogContent = false) :
    analyzeLine la log = la := by
  simp [analyzeLine, h1, h2, h3, h4]

/-- Witness for the amended C4 at a content matching none of the four
regexes. -/
theorem c4_no_match_no_effect_witness :
    matchesError (sampleEntry "all systems nominal").LogContent = false ∧
    matchesWarning (sampleEntry "all systems nominal").LogContent = false ∧
    matchesPerformance (sampleEntry "all systems nominal").LogContent = false ∧
    matchesRestart (sampleEntry "all systems nominal").LogContent = false ∧
    analyzeLine sampleState (sampleEntry "all systems nominal") = sampleState :=
  ⟨by decide, by decide, by decide, by decide,
   c4_no_match_no_effect sampleState (sampleEntry "all systems nominal")
     (by decide) (by decide) (by decide) (by decide)⟩

/-- C5: an entry classified via the restart path (restart pattern matches, no
higher-priority pattern does) is appended to critical-events as a new copy
whose content is exactly "Restart Event: " ++ the original content; the error
and warning counts, the input batch, and the performance list are unchanged
(the original entry is a separate immutable value, not mutated in place). -/
theorem c5_restart_copy (la : LogAnalyzer) (log : LogEntry)
    (h1 : matchesError log.LogContent = false)
    (h2 : matchesWarning log.LogContent = false)
    (h3 : matchesPerformance log.LogContent = false)
    (h4 : matchesRestart log.LogContent = true) :
    analyzeLine la log =
      { la with criticalEvents := la.criticalEvents ++
          [{ log with LogContent := "Restart Event: " ++ log.LogContent }] } ∧
    (analyzeLine la log).errorCount = la.errorCount ∧
    (analyzeLine la log).warningCount = la.warningCount ∧
    (analyzeLine la log).logs = la.logs ∧
    (analyzeLine la log).performanceIssues = la.performanceIssues := by
  refine ⟨?_, ?_, ?_, ?_, ?_⟩ <;> simp [analyzeLine, h1, h2, h3, h4]

/-- Witness for C5 at the spec's scenario line "pod restarted unexpectedly". -/
theorem c5_restart_copy_witness :
    matchesError (sampleEntry "pod restarted unexpectedly").LogContent = false ∧
    matchesWarning (sampleEntry "pod restarted unexpectedly").LogContent = false ∧
    matchesPerformance (sampleEntry "pod restarted unexpectedly").LogContent = false ∧
    matchesRestart (sampleEntry "pod restarted unexpectedly").LogContent = true ∧
    analyzeLine sampleState (sampleEntry "pod restarted unexpectedly") =
      { sampleState with criticalEvents := sampleState.criticalEvents ++
          [{ sampleEntry "pod restarted unexpectedly" with
              LogContent := "Restart Event: pod restarted unexpectedly" }] } :=
  ⟨by decide, by decide, by decide, by decide,
   ((c5_restart_copy sampleState (sampleEntry "pod restarted unexpectedly")
      (by decide) (by decide) (by decide) (by decide)).1.trans (by decide))⟩

/-- C10: because the restart regex `(?i)pod|container.*restart` is the
alternation of the bare literal `pod` with `container.*restart`, any entry
whose content contains "pod" case-insensitively and matches none of the
higher-priority patterns is classified via the restart path and appended to
critical-events with the "Restart Event: " prefix. -/
theorem c10_pod_substring_restart (la : LogAnalyzer) (log : LogEntry)
    (hpod : lcContains log.LogContent "pod" = true)
    (h1 : matchesError log.LogContent = false)
    (h2 : matchesWarning log.LogContent = false)
    (h3 : matchesPerformance log.LogContent = false) :
    analyzeLine la log =
      { la with criticalEvents := la.criticalEvents ++
          [{ log with LogContent := "Restart Event: " ++ log.LogContent }] } := by
  have h4 : matchesRestart log.LogContent = true := by
    unfold matchesRestart
    rw [hpod]
    simp
  simp [analyzeLine, h1, h2, h3, h4]

/-- Witness for C10 at "pod2 starting up": "pod" occurs only inside "pod2"
and no restart phrasing occurs, yet the entry goes to critical-events. -/
theorem c10_pod_substring_restart_witness :
    lcContains (sampleEntry "pod2 starting up").LogContent "pod" = true ∧
    matchesError (sampleEntry "pod2 starting up").LogContent = false ∧
    matchesWarning (sampleEntry "pod2 starting up").LogContent = false ∧
    matchesPerformance (sampleEntry "pod2 starting up").LogContent = false ∧
    analyzeLine sampleState (sampleEntry "pod2 starting up") =
      { sampleState with criticalEvents := sampleState.criticalEvents ++
          [{ sampleEntry "pod2 starting up" with
              LogContent := "Restart Event: pod2 starting up" }] } :=
  ⟨by decide, by decide, by decide, by decide,
   (c10_pod_substring_restart sampleState (sampleEntry "pod2 starting up")
      (by decide) (by decide) (by decide) (by decide)).trans (by decide)⟩


/-- C6: the two output lists are stable partitions of the input batch: each is
exactly the order-preserving `filterMap` of the per-entry classification over
the input, `performanceIssues` is a sublist of the input itself, and
`criticalEvents` is a sublist of the input with the restart entries rewritten
(so any two entries of the same output list appear in input order). -/
theorem c6_stable_partition (logs : List LogEntry) :
    (NewLogAnalyzer logs).criticalEvents = logs.filterMap criticalSelect ∧
    (NewLogAnalyzer logs).performanceIssues = logs.filterMap perfSelect ∧
    List.Sublist (NewLogAnalyzer logs).performanceIssues logs ∧
    List.Sublist (NewLogAnalyzer logs).criticalEvents
      (logs.map fun log => (criticalSelect log).getD log) := by
  have h := NewLogAnalyzer_spec logs
  refine ⟨by rw [h], by rw [h], ?_, ?_⟩
  · rw [h]
    exact filterMap_sublist_self perfSelect logs (fun a b hb => perfSelect_some hb)
  · rw [h]
    exact filterMap_sublist_map_getD criticalSelect logs

/-- C7: Log Store round-trip laws: append-then-snapshot extends the sequence
with the new entry at the end (so the snapshot contains it), clear-then-
snapshot yields the empty sequence, and N appends onto a fresh store followed
by one snapshot yield exactly those N entries with no loss and no
duplication. -/
theorem c7_store_roundtrip (ls : LogStorage) (e : LogEntry) (entries : List LogEntry) :
    GetLogs (AddLog ls e) = GetLogs ls ++ [e] ∧
    e ∈ GetLogs (AddLog ls e) ∧
    GetLogs (Clear ls) = [] ∧
    GetLogs (entries.foldl AddLog NewLogStorage) = entries := by
  refine ⟨rfl, by simp [GetLogs, AddLog], rfl, ?_⟩
  have h := foldl_AddLog entries NewLogStorage
  simpa [GetLogs, NewLogStorage] using h

/-- C8: a pod-listing failure is fatal: `retrieveLogs` returns the error
immediately, its outcome is independent of the container-listing and
log-fetch collaborators and of the timestamp (nothing further is consulted or
fetched), and the store as initialised by the run is empty. -/
theorem c8_fatal_pod_listing (c c2 : Cluster) (ts ts2 ns cf cf2 e : String)
    (h : c.listPods ns = .error e) (h2 : c2.listPods ns = .error e) :
    retrieveLogs c ts ns "" cf = .error ("failed to list pods: " ++ e) ∧
    retrieveLogs c2 ts2 ns "" cf2 = retrieveLogs c ts ns "" cf ∧
    GetLogs NewLogStorage = [] := by
  have r1 := retrieveLogs_podlist_error c ts ns cf e h
  have r2 := retrieveLogs_podlist_error c2 ts2 ns cf2 e h2
  exact ⟨r1, r2.trans r1.symm, rfl⟩

/-- Witness for C8: two clusters that agree only on the failing pod listing
produce the same fatal error. -/
theorem c8_fatal_pod_listing_witness :
    retrieveLogs failingCluster "t0" "ns" "" "" =
      .error ("failed to list pods: " ++ "connection refused") ∧
    retrieveLogs failingCluster2 "t1" "ns" "" "web" =
      retrieveLogs failingCluster "t0" "ns" "" "" ∧
    GetLogs NewLogStorage = [] :=
  c8_fatal_pod_listing failingCluster failingCluster2 "t0" "t1" "ns" "" "web"
    "connection refused" rfl rfl


/-- C1: over K pods with M containers each, all listings and fetches
succeeding and each raw stream holding L non-empty lines, the retrieval
operation produces exactly K*M*L entries and no errors on the channels, and
the fan-in consumer can only return after draining every produced entry into
the store — at return the store holds exactly the K*M*L entries.  (The
functional embedding returns the completed contribution of every level-1 and
level-2 task; the consumer theorem expresses that the operation's completion
implies all work was drained, for every schedule.) -/
theorem c1_retrieval_completion (c : Cluster) (ts ns : String) (K M L : Nat)
    (pods : List String) (css : String → List String) (raws : String → String → String)
    (hpods : c.listPods ns = .ok pods) (hK : pods.length = K)
    (hcs : ∀ p ∈ pods, c.listContainers ns p = .ok (css p) ∧ (css p).length = M)
    (hfetch : ∀ p ∈ pods, ∀ cn ∈ css p, c.fetchLogs ns p cn = .ok (raws p cn) ∧
      ((splitLines (raws p cn)).filter (fun l => l ≠ "")).length = L) :
    ∃ sent : List LogEntry × List String,
      retrieveLogs c ts ns "" "" = .ok sent ∧
      sent.1.length = K * M * L ∧ sent.2 = [] ∧
      ∀ sched : List Bool,
        (runConsumer (initConsumer sent.1 sent.2) sched).returned = true →
        (runConsumer (initConsumer sent.1 sent.2) sched).stored = sent.1 ∧
        (runConsumer (initConsumer sent.1 sent.2) sched).stored.length = K * M * L := by
  obtain ⟨sent, hs, hlen, herr⟩ := retrieveLogs_all_ok c ts ns pods M L css raws hpods hcs hfetch
  subst hK
  have hlen' : sent.1.length = pods.length * M * L := by rw [hlen]; ring
  refine ⟨sent, hs, hlen', herr, ?_⟩
  intro sched hret
  have hst := consumer_completion sent.1 sent.2 sched hret
  exact ⟨hst, by rw [hst, hlen']⟩

/-- Witness for C1: one pod, two containers, each stream "alpha\nbeta" with
two non-empty lines, giving 1*2*2 = 4 entries. -/
theorem c1_retrieval_completion_witness :
    ∃ sent : List LogEntry × List String,
      retrieveLogs healthyCluster "t0" "ns" "" "" = .ok sent ∧
      sent.1.length = 1 * 2 * 2 ∧ sent.2 = [] ∧
      ∀ sched : List Bool,
        (runConsumer (initConsumer sent.1 sent.2) sched).returned = true →
        (runConsumer (initConsumer sent.1 sent.2) sched).stored = sent.1 ∧
        (runConsumer (initConsumer sent.1 sent.2) sched).stored.length = 1 * 2 * 2 :=
  c1_retrieval_completion healthyCluster "t0" "ns" 1 2 2 ["p1"] (fun _ => ["c1", "c2"])
    (fun _ _ => "alpha\nbeta") rfl rfl
    (by intro p hp; exact ⟨rfl, rfl⟩)
    (by
      intro p hp cn hcn
      refine ⟨rfl, ?_⟩
      show ((splitLines "alpha\nbeta").filter (fun l => l ≠ "")).length = 2
      decide)

/-- C2 at the failing input (K = 1 pod, M = 2 containers, container c1's
fetch fails, c2 yields L = 1 line): the run completes with (K*M − 1)*L = 1
entry and one error on the channels; under the schedule that reads the error
before observing the results channel's closure the error is delivered, but
under the schedule that twice selects the `logChan` case the consumer
returns with the store complete and the error NEVER delivered — the code does
not drain the errors channel to closure, so "exactly one error is delivered"
fails. -/
theorem c2_partial_failure_error_drop :
    retrieveLogs oneFailCluster "t0" "ns" "" "" = .ok ([droppedEntry], [droppedErr]) ∧
    [droppedEntry].length = (1 * 2 - 1) * 1 ∧
    runConsumer (initConsumer [droppedEntry] [droppedErr]) [false, true, true] =
      { logBuf := [], errBuf := [], stored := [droppedEntry],
        delivered := [droppedErr], returned := true } ∧
    runConsumer (initConsumer [droppedEntry] [droppedErr]) [true, true] =
      { logBuf := [], errBuf := [droppedErr], stored := [droppedEntry],
        delivered := [], returned := true } :=
  ⟨rfl, by decide, by decide, by decide⟩


lemma criticalSectionText_nil :
    criticalSectionText [] = "- No critical events detected.\n" := rfl

lemma perfSectionText_nil :
    perfSectionText [] = "- No significant performance issues detected.\n" := rfl

lemma criticalSectionText_pos (events : List LogEntry) (h : events.length > 0) :
    criticalSectionText events =
      events.foldl (fun r event => r ++ eventLine event) "" := by
  unfold criticalSectionText
  rw [if_pos h]

lemma perfSectionText_pos (issues : List LogEntry) (h : issues.length > 0) :
    perfSectionText issues =
      issues.foldl (fun r issue => r ++ eventLine issue) "" := by
  unfold perfSectionText
  rw [if_pos h]

/-- C9: the report is a pure function of the classification state whose text
contains the total entry count, the error count, the warning count, one line
per critical event and per performance issue (timestamp, pod, container,
content), and the respective placeholder lines when the lists are empty; for
the empty batch, classification yields zero counts and empty lists and the
report shows zero total entries with both placeholders. -/
theorem c9_report_content (la : LogAnalyzer) :
    (∃ s t, generateDetailedReport la =
      s ++ ("- **Total Log Entries:** " ++ Nat.repr la.logs.length ++ "\n") ++ t) ∧
    (∃ s t, generateDetailedReport la =
      s ++ ("- **Error Count:** " ++ Nat.repr la.errorCount ++ "\n") ++ t) ∧
    (∃ s t, generateDetailedReport la =
      s ++ ("- **Warning Count:** " ++ Nat.repr la.warningCount ++ "\n\n") ++ t) ∧
    (∀ event ∈ la.criticalEvents, ∃ s t,
      generateDetailedReport la = s ++ eventLine event ++ t) ∧
    (∀ issue ∈ la.performanceIssues, ∃ s t,
      generateDetailedReport la = s ++ eventLine issue ++ t) ∧
    (la.criticalEvents = [] → ∃ s t,
      generateDetailedReport la = s ++ "- No critical events detected.\n" ++ t) ∧
    (la.performanceIssues = [] → ∃ s t,
      generateDetailedReport la = s ++ "- No significant performance issues detected.\n" ++ t) ∧
    NewLogAnalyzer [] =
      { logs := [], criticalEvents := [], performanceIssues := [],
        errorCount := 0, warningCount := 0 } ∧
    generateDetailedReport (NewLogAnalyzer []) =
      "### Kubernetes Log Analysis Report\n\n- **Total Log Entries:** 0\n- **Error Count:** 0\n- **Warning Count:** 0\n\n#### Critical Events\n- No critical events detected.\n\n#### Performance Issues\n- No significant performance issues detected.\n" := by
  refine ⟨?_, ?_, ?_, ?_, ?_, ?_, ?_, rfl, by rfl⟩
  · refine ⟨"### Kubernetes Log Analysis Report\n\n",
      "- **Error Count:** " ++ Nat.repr la.errorCount ++ "\n" ++
      "- **Warning Count:** " ++ Nat.repr la.warningCount ++ "\n\n" ++
      "#### Critical Events\n" ++ criticalSectionText la.criticalEvents ++
      "\n#### Performance Issues\n" ++ perfSectionText la.performanceIssues, ?_⟩
    rw [generateDetailedReport_shape]
    simp only [String.append_assoc]
  · refine ⟨"### Kubernetes Log Analysis Report\n\n" ++
      "- **Total Log Entries:** " ++ Nat.repr la.logs.length ++ "\n",
      "- **Warning Count:** " ++ Nat.repr la.warningCount ++ "\n\n" ++
      "#### Critical Events\n" ++ criticalSectionText la.criticalEvents ++
      "\n#### Performance Issues\n" ++ perfSectionText la.performanceIssues, ?_⟩
    rw [generateDetailedReport_shape]
    simp only [String.append_assoc]
  · refine ⟨"### Kubernetes Log Analysis Report\n\n" ++
      "- **Total Log Entries:** " ++ Nat.repr la.logs.length ++ "\n" ++
      "- **Error Count:** " ++ Nat.repr la.errorCount ++ "\n",
      "#### Critical Events\n" ++ criticalSectionText la.criticalEvents ++
      "\n#### Performance Issues\n" ++ perfSectionText la.performanceIssues, ?_⟩
    rw [generateDetailedReport_shape]
    simp only [String.append_assoc]
  · intro event hev
    have hpos : la.criticalEvents.length > 0 :=
      List.length_pos.mpr (List.ne_nil_of_mem hev)
    obtain ⟨s, t, hst⟩ := foldl_eventLine_mem la.criticalEvents event hev
    refine ⟨"### Kubernetes Log Analysis Report\n\n" ++
      "- **Total Log Entries:** " ++ Nat.repr la.logs.length ++ "\n" ++
      "- **Error Count:** " ++ Nat.repr la.errorCount ++ "\n" ++
      "- **Warning Count:** " ++ Nat.repr la.warningCount ++ "\n\n" ++
      "#### Critical Events\n" ++ s,
      t ++ ("\n#### Performance Issues\n" ++ perfSectionText la.performanceIssues), ?_⟩
    rw [generateDetailedReport_shape, criticalSectionText_pos la.criticalEvents hpos, hst]
    simp only [String.append_assoc]
  · intro issue hiss
    have hpos : la.performanceIssues.length > 0 :=
      List.length_pos.mpr (List.ne_nil_of_mem hiss)
    obtain ⟨s, t, hst⟩ := foldl_eventLine_mem la.performanceIssues issue hiss
    refine ⟨"### Kubernetes Log Analysis Report\n\n" ++
      "- **Total Log Entries:** " ++ Nat.repr la.logs.length ++ "\n" ++
      "- **Error Count:** " ++ Nat.repr la.errorCount ++ "\n" ++
      "- **Warning Count:** " ++ Nat.repr la.warningCount ++ "\n\n" ++
      "#### Critical Events\n" ++ criticalSectionText la.criticalEvents ++
      "\n#### Performance Issues\n" ++ s, t, ?_⟩
    rw [generateDetailedReport_shape, perfSectionText_pos la.performanceIssues hpos, hst]
    simp only [String.append_assoc]
  · intro hce
    refine ⟨"### Kubernetes Log Analysis Report\n\n" ++
      "- **Total Log Entries:** " ++ Nat.repr la.logs.length ++ "\n" ++
      "- **Error Count:** " ++ Nat.repr la.errorCount ++ "\n" ++
      "- **Warning Count:** " ++ Nat.repr la.warningCount ++ "\n\n" ++
      "#### Critical Events\n",
      "\n#### Performance Issues\n" ++ perfSectionText la.performanceIssues, ?_⟩
    rw [generateDetailedReport_shape, hce, criticalSectionText_nil]
    simp only [String.append_assoc]
  · intro hpe
    refine ⟨"### Kubernetes Log Analysis Report\n\n" ++
      "- **Total Log Entries:** " ++ Nat.repr la.logs.length ++ "\n" ++
      "- **Error Count:** " ++ Nat.repr la.errorCount ++ "\n" ++
      "- **Warning Count:** " ++ Nat.repr la.warningCount ++ "\n\n" ++
      "#### Critical Events\n" ++ criticalSectionText la.criticalEvents ++
      "\n#### Performance Issues\n", "", ?_⟩
    rw [generateDetailedReport_shape, hpe, perfSectionText_nil]
    simp only [String.append_assoc, String.append_empty]

/-- Witness for C9 at a state with a non-empty critical list: the event's
report line occurs in the output. -/
theorem c9_report_content_witness :
    sampleEntry "previous critical" ∈ sampleState.criticalEvents ∧
    ∃ s t, generateDetailedReport sampleState =
      s ++ eventLine (sampleEntry "previous critical") ++ t :=
  ⟨by decide,
   (c9_report_content sampleState).2.2.2.1 (sampleEntry "previous critical") (by decide)⟩

end Hallucino
